import Mathlib

/-!
Verification of the server resource-accounting and admission-control core of
`userver` (`src/core/include/userver/server/request/response_base.hpp` and
`src/core/src/server/net/stats.hpp`).

Machine arithmetic: all `std::size_t` fields are modelled as `Nat` with
explicit reduction modulo `2 ^ 64`; the signed striped counters are modelled
by their logical read value as `Int` (the spec, §4.1, defines the logical
value of a sharded counter as the signed sum over all shards).

The bodies of `ResponseDataAccounter::StartRequest` / `StopRequest` /
`GetAvgRequestTime`, of `ResponseBase`'s constructor, setters and
`IsLimitReached`, and of `concurrent::StripedCounter`, live in translation
units that are not part of the sampled sources; those operations are
modelled from the spec (§4.1–§4.3) and are marked `Modelled from the spec:`
in their doc comments.  Everything else is translated directly from the two
headers above.
-/

namespace Userver

/-- The modulus of `std::size_t` arithmetic on the target platform, `2 ^ 64`. -/
def W : Nat := 2 ^ 64

/-- Wrapping addition of two `std::size_t` values (`a + b` in C++). -/
def addW (a b : Nat) : Nat := (a + b) % W

/-- Wrapping subtraction of two `std::size_t` values (`a - b` in C++):
for `a, b < W` this is `(a - b) mod W` in the integers. -/
def subW (a b : Nat) : Nat := (a + (W - b % W)) % W

/-- `ResponseDataAccounter` (response_base.hpp, lines 22–43).  Fields are the
data members: `current_` and `max_` are `std::atomic<size_t>`; `count_` and
`time_sum_` are `concurrent::StripedCounter`s, modelled by their signed
logical value (the sum over all shards, spec §4.1); `time_sum_` is in
milliseconds. -/
structure ResponseDataAccounter where
  current_ : Nat
  max_ : Nat
  count_ : Int
  time_sum_ : Int
deriving DecidableEq, Repr

namespace ResponseDataAccounter

/-- The default-constructed accounter (member initializers in the header):
`current_{0}`, `max_{std::numeric_limits<size_t>::max()}`, zeroed counters. -/
def init : ResponseDataAccounter :=
  { current_ := 0, max_ := W - 1, count_ := 0, time_sum_ := 0 }

/-- Modelled from the spec (§4.2), body not in the sampled sources:
`StartRequest(size, createTime)` adds `size` to the current-bytes total
(`current_` is a `size_t`, so the addition wraps modulo `2 ^ 64`). -/
def StartRequest (acc : ResponseDataAccounter) (size : Nat)
    (createTime : Int) : ResponseDataAccounter :=
  { acc with current_ := addW acc.current_ size }

/-- Modelled from the spec (§4.2), body not in the sampled sources:
`StopRequest(size, createTime)` subtracts `size` from the current-bytes
total (wrapping `size_t` subtraction), adds `now - createTime` (in
milliseconds) to the time-sum counter and increments the count counter. -/
def StopRequest (acc : ResponseDataAccounter) (size : Nat)
    (createTime now : Int) : ResponseDataAccounter :=
  { acc with
      current_ := subW acc.current_ size
      count_ := acc.count_ + 1
      time_sum_ := acc.time_sum_ + (now - createTime) }

/-- `GetCurrentLevel` (in the header): returns `current_`. -/
def GetCurrentLevel (acc : ResponseDataAccounter) : Nat := acc.current_

/-- `GetMaxLevel` (in the header): returns `max_`. -/
def GetMaxLevel (acc : ResponseDataAccounter) : Nat := acc.max_

/-- `SetMaxLevel` (in the header): stores `size` into `max_`. -/
def SetMaxLevel (acc : ResponseDataAccounter) (size : Nat) :
    ResponseDataAccounter :=
  { acc with max_ := size }

/-- Modelled from the spec (§4.2), body not in the sampled sources:
`GetAvgRequestTime()` returns the time-sum divided by the count, and zero
(not an error) when the count is zero.  `Int.tdiv` is C++'s truncating
integer division. -/
def GetAvgRequestTime (acc : ResponseDataAccounter) : Int :=
  if acc.count_ = 0 then 0 else acc.time_sum_.tdiv acc.count_

/-- Modelled from the spec (§4.2), body of `ResponseBase::IsLimitReached`
not in the sampled sources; the spec lists it as an accounter operation:
true iff the current outstanding bytes exceed the configured ceiling. -/
def IsLimitReached (acc : ResponseDataAccounter) : Bool :=
  acc.GetMaxLevel < acc.GetCurrentLevel

end ResponseDataAccounter

/-- `ResponseBase::Guard` (response_base.hpp, lines 93–107, fully inline in
the header): holds the accounter reference, the creation time and the size.
Its constructor performs `StartRequest(size_, create_time_)` and its
destructor performs `StopRequest(size_, create_time_)`. -/
structure Guard where
  create_time_ : Int
  size_ : Nat
deriving DecidableEq, Repr

namespace Guard

/-- The `Guard` constructor (inline in the header): records `create_time`
and `size` and performs `StartRequest(size, create_time)` on the shared
accounter.  Returns the constructed guard and the updated accounter. -/
def create (acc : ResponseDataAccounter) (create_time : Int) (size : Nat) :
    Guard × ResponseDataAccounter :=
  ({ create_time_ := create_time, size_ := size },
    acc.StartRequest size create_time)

/-- The `Guard` destructor (inline in the header): unconditionally performs
`StopRequest(size_, create_time_)` on the shared accounter; `now` is the
steady-clock reading taken inside `StopRequest`. -/
def destroy (g : Guard) (acc : ResponseDataAccounter) (now : Int) :
    ResponseDataAccounter :=
  acc.StopRequest g.size_ g.create_time_ now

end Guard

/-- `ResponseBase` (response_base.hpp, lines 46–118).  Data members, with
`std::chrono::steady_clock::time_point`s as milliseconds (`Int`) and the
payload `std::string` as `String`.  `guard_` is `std::optional<Guard>`; the
constructor always engages it, so it is modelled as a plain `Guard`. -/
structure ResponseBase where
  guard_ : Guard
  data_ : String
  create_time_ : Int
  ready_time_ : Int
  sent_time_ : Int
  bytes_sent_ : Nat
  is_ready_ : Bool
  is_sent_ : Bool
  stream_id_ : Option Nat
deriving DecidableEq, Repr

namespace ResponseBase

/-- Modelled from the spec (§4.3), constructor body not in the sampled
sources: construction takes the shared accounter and a declared size,
records the creation time, and immediately performs `StartRequest` by
engaging the internally held guard.  Remaining members take their
default-constructed values from the header (`bytes_sent_ = 0`, flags
false, empty payload, disengaged `stream_id_`). -/
def create (acc : ResponseDataAccounter) (size : Nat) (now : Int) :
    ResponseBase × ResponseDataAccounter :=
  let gp := Guard.create acc now size
  ({ guard_ := gp.1
     data_ := ""
     create_time_ := now
     ready_time_ := 0
     sent_time_ := 0
     bytes_sent_ := 0
     is_ready_ := false
     is_sent_ := false
     stream_id_ := none }, gp.2)

/-- The `ResponseBase` destructor: its members are destroyed, which runs
the engaged guard's destructor and hence the matching `StopRequest`. -/
def destroy (r : ResponseBase) (acc : ResponseDataAccounter) (now : Int) :
    ResponseDataAccounter :=
  r.guard_.destroy acc now

/-- Modelled from the spec (§4.3), body not in the sampled sources:
`SetData` stores the payload buffer. -/
def SetData (r : ResponseBase) (data : String) : ResponseBase :=
  { r with data_ := data }

/-- `GetData` (inline in the header): returns the payload buffer. -/
def GetData (r : ResponseBase) : String := r.data_

/-- `MoveData` (inline in the header): `return std::move(data_);` — hands
the payload buffer to the caller for consumption by a move, which leaves
the object's own buffer empty (the moved-from `std::string` of both
mainstream standard libraries).  Modelled as returning the payload
together with the emptied object. -/
def MoveData (r : ResponseBase) : String × ResponseBase :=
  (r.data_, { r with data_ := "" })

/-- Modelled from the spec (§4.3), body not in the sampled sources:
`SetReady(now)` marks the response finalized and records the ready
timestamp. -/
def SetReady (r : ResponseBase) (now : Int) : ResponseBase :=
  { r with is_ready_ := true, ready_time_ := now }

/-- Modelled from the spec (§4.3), body not in the sampled sources:
`SetSent(bytes_sent, sent_time)` records how many bytes reached the
transport and when, and sets the sent flag. -/
def SetSent (r : ResponseBase) (bytes_sent : Nat) (sent_time : Int) :
    ResponseBase :=
  { r with bytes_sent_ := bytes_sent, sent_time_ := sent_time,
           is_sent_ := true }

/-- Modelled from the spec (§4.3), body not in the sampled sources:
`SetSendFailed(failure_time)` records the failure time for statistics and
mutates only the response object's own members; the shared accounter is
not touched (release happens only at destruction, via the guard). -/
def SetSendFailed (r : ResponseBase) (failure_time : Int) : ResponseBase :=
  { r with sent_time_ := failure_time, bytes_sent_ := 0 }

/-- Modelled from the spec (§4.3), body not in the sampled sources:
`SetStreamId` stores the multiplexed-stream identifier. -/
def SetStreamId (r : ResponseBase) (stream_id : Nat) : ResponseBase :=
  { r with stream_id_ := some stream_id }

end ResponseBase

/-- A call on a `ResponseBase` that mutates only the response object (no
terminal-setter call touches the shared accounter).  Used to quantify over
"any sequence of setter calls between construction and destruction". -/
inductive SetterOp where
  | setData (data : String)
  | moveData
  | setReady (now : Int)
  | setSent (bytes_sent : Nat) (sent_time : Int)
  | setSendFailed (failure_time : Int)
  | setStreamId (stream_id : Nat)
deriving DecidableEq, Repr

/-- Apply one setter call to the response object. -/
def applyOp (r : ResponseBase) : SetterOp → ResponseBase
  | .setData data => r.SetData data
  | .moveData => (r.MoveData).2
  | .setReady now => r.SetReady now
  | .setSent b t => r.SetSent b t
  | .setSendFailed t => r.SetSendFailed t
  | .setStreamId i => r.SetStreamId i

/-- Apply a sequence of setter calls, first to last. -/
def applyOps (ops : List SetterOp) (r : ResponseBase) : ResponseBase :=
  ops.foldl applyOp r

/-- `SetSendFailed` seen as a step on the combined world state (the
response object together with the shared accounter): the body mutates only
the response's members, so the accounter component is passed through. -/
def sendFailedStep (w : ResponseBase × ResponseDataAccounter) (t : Int) :
    ResponseBase × ResponseDataAccounter :=
  (w.1.SetSendFailed t, w.2)

/-- Modelled from the spec (§4.1), `concurrent::StripedCounter` sources not
sampled: `Read()` returns the signed sum over all shards — here the counter
is modelled directly by that logical value. -/
def stripedRead (v : Int) : Int := v

/-- Modelled from the spec (§4.1): `NonNegativeRead()` is `Read()` clamped
to zero when negative, as an unsigned value. -/
def stripedNonNegativeRead (v : Int) : Nat := v.toNat

/-- Conversion of a signed 64-bit value to `std::size_t` (the C++ rule:
reduction modulo `2 ^ 64`), as happens when a raw `Read()` initializes an
unsigned field. -/
def sizeTOfInt (v : Int) : Nat := (v % (W : Int)).toNat

/-- `Http2Stats` (stats.hpp): five `StripedRateCounter`s, each modelled by
the (unsigned) `value` component of its `Load()`. -/
structure Http2Stats where
  streams_count_ : Nat
  streams_parse_error_ : Nat
  streams_close_ : Nat
  reset_streams_ : Nat
  goaway_streams_ : Nat
deriving DecidableEq, Repr

/-- `ParserStats` (stats.hpp): a `StripedCounter` (modelled by its signed
logical value) plus the HTTP/2 rate counters. -/
structure ParserStats where
  parsing_request_count : Int
  http2_stats : Http2Stats
deriving DecidableEq, Repr

/-- `Stats` (stats.hpp, lines 60–70): per-listener atomics plus the
per-connection counters; the two `StripedCounter`s are modelled by their
signed logical values. -/
structure Stats where
  active_connections : Nat
  connections_created : Nat
  connections_closed : Nat
  parser_stats : ParserStats
  active_request_count : Int
  requests_processed_count : Int
deriving DecidableEq, Repr

/-- `ParserStatsAggregation` (stats.hpp, lines 28–58): plain `std::size_t`
snapshot fields. -/
structure ParserStatsAggregation where
  parsing_request_count : Nat
  streams_count : Nat
  streams_parse_error : Nat
  streams_close : Nat
  reset_streams : Nat
  goaway_streams : Nat
deriving DecidableEq, Repr

namespace ParserStatsAggregation

/-- The snapshot constructor `ParserStatsAggregation(const ParserStats&)`:
`parsing_request_count` via `NonNegativeRead()`, the HTTP/2 fields via
`Load().value`. -/
def ofStats (s : ParserStats) : ParserStatsAggregation :=
  { parsing_request_count := stripedNonNegativeRead s.parsing_request_count
    streams_count := s.http2_stats.streams_count_
    streams_parse_error := s.http2_stats.streams_parse_error_
    streams_close := s.http2_stats.streams_close_
    reset_streams := s.http2_stats.reset_streams_
    goaway_streams := s.http2_stats.goaway_streams_ }

/-- `ParserStatsAggregation::operator+=` (stats.hpp, lines 40–49):
field-wise `std::size_t` addition; returns the updated left operand. -/
def addAssign (a b : ParserStatsAggregation) : ParserStatsAggregation :=
  { parsing_request_count := addW a.parsing_request_count b.parsing_request_count
    streams_count := addW a.streams_count b.streams_count
    streams_parse_error := addW a.streams_parse_error b.streams_parse_error
    streams_close := addW a.streams_close b.streams_close
    reset_streams := addW a.reset_streams b.reset_streams
    goaway_streams := addW a.goaway_streams b.goaway_streams }

end ParserStatsAggregation

/-- `StatsAggregation` (stats.hpp, lines 72–103): plain `std::size_t`
snapshot fields plus the nested parser snapshot. -/
structure StatsAggregation where
  active_connections : Nat
  connections_created : Nat
  connections_closed : Nat
  parser_stats : ParserStatsAggregation
  active_request_count : Nat
  requests_processed_count : Nat
deriving DecidableEq, Repr

namespace StatsAggregation

/-- The snapshot constructor `StatsAggregation(const Stats&)` (stats.hpp,
lines 75–81): atomics via `load()`, `active_request_count` via
`NonNegativeRead()`, but `requests_processed_count` via the raw signed
`Read()` stored into the unsigned field (modular conversion). -/
def ofStats (s : Stats) : StatsAggregation :=
  { active_connections := s.active_connections
    connections_created := s.connections_created
    connections_closed := s.connections_closed
    parser_stats := ParserStatsAggregation.ofStats s.parser_stats
    active_request_count := stripedNonNegativeRead s.active_request_count
    requests_processed_count := sizeTOfInt (stripedRead s.requests_processed_count) }

/-- `StatsAggregation::operator+=` (stats.hpp, lines 83–93): field-wise
`std::size_t` addition, delegating to the nested parser `operator+=`;
returns the updated left operand. -/
def addAssign (a b : StatsAggregation) : StatsAggregation :=
  { active_connections := addW a.active_connections b.active_connections
    connections_created := addW a.connections_created b.connections_created
    connections_closed := addW a.connections_closed b.connections_closed
    parser_stats := a.parser_stats.addAssign b.parser_stats
    active_request_count := addW a.active_request_count b.active_request_count
    requests_processed_count := addW a.requests_processed_count b.requests_processed_count }

end StatsAggregation

/-- One accounter call in a sequential history: either
`StartRequest(size, createTime)` or `StopRequest(size, createTime)`, the
latter with the steady-clock reading `now` taken inside the call. -/
inductive AccEvent where
  | start (size : Nat) (createTime : Int)
  | stop (size : Nat) (createTime : Int) (now : Int)
deriving DecidableEq, Repr

/-- Apply one accounter call. -/
def applyEvent (acc : ResponseDataAccounter) : AccEvent → ResponseDataAccounter
  | .start s t => acc.StartRequest s t
  | .stop s t n => acc.StopRequest s t n

/-- Run a sequence of accounter calls, first to last. -/
def runEvents (acc : ResponseDataAccounter) : List AccEvent → ResponseDataAccounter
  | [] => acc
  | e :: es => runEvents (applyEvent acc e) es

/-- The `(size, createTime)` pairs of the `StartRequest` calls of a history. -/
def startPairs : List AccEvent → List (Nat × Int)
  | [] => []
  | .start s t :: es => (s, t) :: startPairs es
  | .stop _ _ _ :: es => startPairs es

/-- The `(size, createTime)` pairs of the `StopRequest` calls of a history. -/
def stopPairs : List AccEvent → List (Nat × Int)
  | [] => []
  | .start _ _ :: es => stopPairs es
  | .stop s t _ :: es => (s, t) :: stopPairs es

/-- The elapsed times `now - createTime` recorded by the `StopRequest`
calls of a history, in order. -/
def stopElapsed : List AccEvent → List Int
  | [] => []
  | .start _ _ :: es => stopElapsed es
  | .stop _ t n :: es => (n - t) :: stopElapsed es

/-- The contribution of one call to `current_`, modulo `W`: a start adds
its size, a stop adds the modular negation of its size. -/
def contrib : AccEvent → Nat
  | .start s _ => s
  | .stop s _ _ => W - s % W

/-- C++ integer division made explicit as a fallible operation: dividing by
zero is undefined behaviour, modelled as `none`; `Int.tdiv` is the
truncating division C++ performs otherwise. -/
def tdivChecked (a b : Int) : Option Int :=
  if b = 0 then none else some (a.tdiv b)

/-- Modelled from the spec (§4.2): `GetAvgRequestTime` with its division
written through `tdivChecked`, so that an unguarded zero count would
surface as `none`.  The spec's zero-count guard returns zero before any
division happens. -/
def ResponseDataAccounter.GetAvgRequestTimeChecked
    (acc : ResponseDataAccounter) : Option Int :=
  if acc.count_ = 0 then some 0 else tdivChecked acc.time_sum_ acc.count_

theorem W_eq : W = 18446744073709551616 := by norm_num [W]

theorem W_pos : 0 < W := by rw [W_eq]; omega

theorem addW_comm (a b : Nat) : addW a b = addW b a := by
  unfold addW; rw [Nat.add_comm]

theorem addW_assoc (a b c : Nat) : addW (addW a b) c = addW a (addW b c) := by
  unfold addW
  rw [Nat.mod_add_mod, Nat.add_mod_mod, Nat.add_assoc]

theorem current_runEvents (es : List AccEvent) :
    ∀ acc : ResponseDataAccounter, acc.current_ < W →
      (runEvents acc es).current_ = (acc.current_ + (es.map contrib).sum) % W := by
  induction es with
  | nil =>
    intro acc h
    simp [runEvents, Nat.mod_eq_of_lt h]
  | cons e es ih =>
    intro acc h
    cases e with
    | start s t =>
      rw [runEvents, ih _ (Nat.mod_lt _ W_pos)]
      show ((acc.current_ + s) % W + _) % W = _
      rw [Nat.mod_add_mod, List.map_cons, List.sum_cons, contrib, Nat.add_assoc]
    | stop s t n =>
      rw [runEvents, ih _ (Nat.mod_lt _ W_pos)]
      show ((acc.current_ + (W - s % W)) % W + _) % W = _
      rw [Nat.mod_add_mod, List.map_cons, List.sum_cons, contrib, Nat.add_assoc]

theorem count_runEvents (es : List AccEvent) :
    ∀ acc : ResponseDataAccounter,
      (runEvents acc es).count_ = acc.count_ + (stopElapsed es).length := by
  induction es with
  | nil => intro acc; simp [runEvents, stopElapsed]
  | cons e es ih =>
    intro acc
    cases e with
    | start s t =>
      rw [runEvents, ih]
      rfl
    | stop s t n =>
      rw [runEvents, ih]
      show acc.count_ + 1 + _ = _
      rw [stopElapsed, List.length_cons]
      push_cast
      ring

theorem time_sum_runEvents (es : List AccEvent) :
    ∀ acc : ResponseDataAccounter,
      (runEvents acc es).time_sum_ = acc.time_sum_ + (stopElapsed es).sum := by
  induction es with
  | nil => intro acc; simp [runEvents, stopElapsed]
  | cons e es ih =>
    intro acc
    cases e with
    | start s t =>
      rw [runEvents, ih]
      rfl
    | stop s t n =>
      rw [runEvents, ih]
      show acc.time_sum_ + (n - t) + _ = _
      rw [stopElapsed, List.sum_cons]
      ring

theorem contrib_sum_split (es : List AccEvent) :
    (es.map contrib).sum
      = ((startPairs es).map Prod.fst).sum
        + (((stopPairs es).map Prod.fst).map (fun s => W - s % W)).sum := by
  induction es with
  | nil => simp [startPairs, stopPairs]
  | cons e es ih =>
    cases e with
    | start s t =>
      simp only [List.map_cons, List.sum_cons, startPairs, stopPairs, contrib, ih]
      omega
    | stop s t n =>
      simp only [List.map_cons, List.sum_cons, startPairs, stopPairs, contrib, ih]
      omega

theorem modsum_congr (l : List Nat) :
    (l.map (· % W)).sum % W = l.sum % W := by
  induction l with
  | nil => rfl
  | cons x l ih =>
    simp only [List.map_cons, List.sum_cons]
    rw [W_eq] at ih ⊢
    omega

theorem stop_contrib_sum (l : List Nat) :
    (l.map (fun s => W - s % W)).sum + (l.map (· % W)).sum = l.length * W := by
  induction l with
  | nil => simp
  | cons x l ih =>
    simp only [List.map_cons, List.sum_cons, List.length_cons]
    rw [W_eq] at ih ⊢
    omega

theorem guard_applyOp (r : ResponseBase) (op : SetterOp) :
    (applyOp r op).guard_ = r.guard_ := by
  cases op <;> rfl

theorem guard_applyOps (ops : List SetterOp) :
    ∀ r : ResponseBase, (applyOps ops r).guard_ = r.guard_ := by
  induction ops with
  | nil => intro r; rfl
  | cons op ops ih =>
    intro r
    show (applyOps ops (applyOp r op)).guard_ = r.guard_
    rw [ih, guard_applyOp]

theorem psa_addAssign_comm (a b : ParserStatsAggregation) :
    a.addAssign b = b.addAssign a := by
  simp only [ParserStatsAggregation.addAssign, ParserStatsAggregation.mk.injEq]
  exact ⟨addW_comm _ _, addW_comm _ _, addW_comm _ _, addW_comm _ _,
    addW_comm _ _, addW_comm _ _⟩

theorem psa_addAssign_assoc (a b c : ParserStatsAggregation) :
    (a.addAssign b).addAssign c = a.addAssign (b.addAssign c) := by
  simp only [ParserStatsAggregation.addAssign, addW_assoc]

theorem stats_addAssign_comm (a b : StatsAggregation) :
    a.addAssign b = b.addAssign a := by
  simp only [StatsAggregation.addAssign, StatsAggregation.mk.injEq]
  exact ⟨addW_comm _ _, addW_comm _ _, addW_comm _ _, psa_addAssign_comm _ _,
    addW_comm _ _, addW_comm _ _⟩

theorem stats_addAssign_assoc (a b c : StatsAggregation) :
    (a.addAssign b).addAssign c = a.addAssign (b.addAssign c) := by
  simp only [StatsAggregation.addAssign, addW_assoc, psa_addAssign_assoc]

/-- Claim C1: for every sequence of accounter calls in which each
`StartRequest(size, t)` is matched by a `StopRequest(size, t)` with the
same size (formalised: the `(size, createTime)` pairs of the starts are a
permutation of those of the stops), running the sequence from the freshly
constructed accounter leaves `GetCurrentLevel() = 0`, regardless of the
sizes or the order of the calls. -/
theorem C1_matched_stops_drain_level (es : List AccEvent)
    (h : (startPairs es).Perm (stopPairs es)) :
    (runEvents ResponseDataAccounter.init es).GetCurrentLevel = 0 := by
  have hrun := current_runEvents es ResponseDataAccounter.init W_pos
  have hsplit := contrib_sum_split es
  have hstop := stop_contrib_sum ((stopPairs es).map Prod.fst)
  have hmod := modsum_congr ((stopPairs es).map Prod.fst)
  have hsum : ((startPairs es).map Prod.fst).sum
      = ((stopPairs es).map Prod.fst).sum :=
    (h.map Prod.fst).sum_eq
  have hz : ResponseDataAccounter.init.current_ = 0 := rfl
  show (runEvents ResponseDataAccounter.init es).current_ = 0
  rw [hrun, hsplit, hsum, hz]
  set t := ((stopPairs es).map Prod.fst).sum with ht
  set sw := (((stopPairs es).map Prod.fst).map (fun s => W - s % W)).sum with hsw
  set m := (((stopPairs es).map Prod.fst).map (· % W)).sum with hm
  set k := ((stopPairs es).map Prod.fst).length with hk
  clear_value t sw m k
  rw [W_eq] at hstop hmod ⊢
  omega

/-- Witness for C1: the spec §8 scenario (sizes 100, 200, 50) with the
stops in a different order than the starts still drains the level to 0. -/
theorem C1_witness :
    (startPairs [AccEvent.start 100 0, AccEvent.start 200 5,
        AccEvent.stop 200 5 20, AccEvent.start 50 7,
        AccEvent.stop 50 7 30, AccEvent.stop 100 0 10]).Perm
      (stopPairs [AccEvent.start 100 0, AccEvent.start 200 5,
        AccEvent.stop 200 5 20, AccEvent.start 50 7,
        AccEvent.stop 50 7 30, AccEvent.stop 100 0 10])
    ∧ (runEvents ResponseDataAccounter.init
        [AccEvent.start 100 0, AccEvent.start 200 5,
         AccEvent.stop 200 5 20, AccEvent.start 50 7,
         AccEvent.stop 50 7 30, AccEvent.stop 100 0 10]).GetCurrentLevel = 0 :=
  ⟨by decide, C1_matched_stops_drain_level _ (by decide)⟩

/-- Claim C2: constructing a `ResponseBase` performs exactly one
`StartRequest` on the shared accounter with the declared size, and
destroying it — after any sequence of setter calls, including the empty
one (no terminal setter ever called) — performs the matching
`StopRequest` with the same size and create time, exactly once, via the
guard. -/
theorem C2_construct_starts_destroy_stops (acc acc2 : ResponseDataAccounter)
    (size : Nat) (now dnow : Int) (ops : List SetterOp) :
    (ResponseBase.create acc size now).2 = acc.StartRequest size now
    ∧ (applyOps ops (ResponseBase.create acc size now).1).destroy acc2 dnow
        = acc2.StopRequest size now dnow := by
  refine ⟨rfl, ?_⟩
  show (applyOps ops (ResponseBase.create acc size now).1).guard_.destroy acc2 dnow = _
  rw [guard_applyOps]
  rfl

/-- Claim C3: `IsLimitReached()` is true exactly when
`GetCurrentLevel() > GetMaxLevel()`, and after `SetMaxLevel(0)` it is true
whenever at least one byte is outstanding. -/
theorem C3_limit_iff_level_exceeds_max (acc : ResponseDataAccounter) :
    (acc.IsLimitReached = true ↔ acc.GetCurrentLevel > acc.GetMaxLevel)
    ∧ (acc.GetCurrentLevel > 0 → (acc.SetMaxLevel 0).IsLimitReached = true) := by
  constructor
  · simp [ResponseDataAccounter.IsLimitReached]
  · intro h
    simp only [ResponseDataAccounter.IsLimitReached,
      ResponseDataAccounter.SetMaxLevel, ResponseDataAccounter.GetMaxLevel,
      ResponseDataAccounter.GetCurrentLevel]
    exact decide_eq_true h

/-- Witness for C3: an accounter with one outstanding byte-level 1 and
ceiling 5; after `SetMaxLevel(0)` the limit is reached. -/
theorem C3_witness :
    ResponseDataAccounter.GetCurrentLevel ⟨1, 5, 0, 0⟩ > 0
    ∧ (ResponseDataAccounter.SetMaxLevel ⟨1, 5, 0, 0⟩ 0).IsLimitReached = true :=
  ⟨by decide, (C3_limit_iff_level_exceeds_max ⟨1, 5, 0, 0⟩).2 (by decide)⟩

/-- Claim C4: after any history of accounter calls starting from the fresh
accounter, `GetAvgRequestTime()` is the sum of the elapsed times
`now - createTime` recorded by the `StopRequest` calls, divided by the
number of `StopRequest` calls, and is zero (not an error) when no stop has
been performed. -/
theorem C4_avg_is_sum_over_count (es : List AccEvent) :
    ((stopElapsed es).length = 0 →
      (runEvents ResponseDataAccounter.init es).GetAvgRequestTime = 0)
    ∧ ((stopElapsed es).length ≠ 0 →
      (runEvents ResponseDataAccounter.init es).GetAvgRequestTime
        = (stopElapsed es).sum.tdiv ((stopElapsed es).length : Int)) := by
  have hc := count_runEvents es ResponseDataAccounter.init
  have ht := time_sum_runEvents es ResponseDataAccounter.init
  have hc0 : ResponseDataAccounter.init.count_ = 0 := rfl
  have ht0 : ResponseDataAccounter.init.time_sum_ = 0 := rfl
  rw [hc0] at hc
  rw [ht0] at ht
  constructor
  · intro h
    simp only [ResponseDataAccounter.GetAvgRequestTime, hc, ht, h]
    simp
  · intro h
    simp only [ResponseDataAccounter.GetAvgRequestTime, hc, ht]
    rw [if_neg (by omega), Int.zero_add, Int.zero_add]

/-- Witness for C4: the empty history yields average 0; the spec §8
scenario (stops after 10, 20 and 30 ms) yields 60 ms divided by 3. -/
theorem C4_witness :
    ((stopElapsed ([] : List AccEvent)).length = 0
      ∧ (runEvents ResponseDataAccounter.init []).GetAvgRequestTime = 0)
    ∧ ((stopElapsed [AccEvent.start 100 0, AccEvent.start 200 0,
          AccEvent.start 50 0, AccEvent.stop 100 0 10,
          AccEvent.stop 200 0 20, AccEvent.stop 50 0 30]).length ≠ 0
      ∧ (runEvents ResponseDataAccounter.init
          [AccEvent.start 100 0, AccEvent.start 200 0,
           AccEvent.start 50 0, AccEvent.stop 100 0 10,
           AccEvent.stop 200 0 20, AccEvent.stop 50 0 30]).GetAvgRequestTime
          = (stopElapsed [AccEvent.start 100 0, AccEvent.start 200 0,
              AccEvent.start 50 0, AccEvent.stop 100 0 10,
              AccEvent.stop 200 0 20, AccEvent.stop 50 0 30]).sum.tdiv
            ((stopElapsed [AccEvent.start 100 0, AccEvent.start 200 0,
              AccEvent.start 50 0, AccEvent.stop 100 0 10,
              AccEvent.stop 200 0 20, AccEvent.stop 50 0 30]).length : Int)) :=
  ⟨⟨by decide, (C4_avg_is_sum_over_count []).1 (by decide)⟩,
   ⟨by decide, (C4_avg_is_sum_over_count _).2 (by decide)⟩⟩

/-- Claim C5: the statistics merge `operator+=` is commutative and
associative, including the nested `ParserStatsAggregation` fields; in
particular merging in orders `[A, B, C]` and `[C, A, B]` yields identical
totals. -/
theorem C5_merge_comm_assoc (A B C : StatsAggregation) :
    A.addAssign B = B.addAssign A
    ∧ (A.addAssign B).addAssign C = A.addAssign (B.addAssign C)
    ∧ (A.addAssign B).addAssign C = (C.addAssign A).addAssign B := by
  refine ⟨stats_addAssign_comm A B, stats_addAssign_assoc A B C, ?_⟩
  rw [stats_addAssign_comm (A.addAssign B) C, ← stats_addAssign_assoc]

/-- Claim C6: the freshly constructed accounter's ceiling is the
"effectively unlimited" sentinel `std::numeric_limits<size_t>::max()`
(`2 ^ 64 - 1`), so before any `SetMaxLevel` call `IsLimitReached()` is
false for every representable outstanding-bytes level. -/
theorem C6_default_ceiling_unlimited (lvl : Nat) (h : lvl < W) :
    ResponseDataAccounter.init.GetMaxLevel = W - 1
    ∧ ({ ResponseDataAccounter.init with current_ := lvl } :
        ResponseDataAccounter).IsLimitReached = false := by
  refine ⟨rfl, ?_⟩
  simp only [ResponseDataAccounter.IsLimitReached,
    ResponseDataAccounter.GetMaxLevel, ResponseDataAccounter.GetCurrentLevel,
    decide_eq_false_iff_not, not_lt]
  rw [show ResponseDataAccounter.init.max_ = W - 1 from rfl]
  rw [W_eq] at h ⊢
  omega

/-- Witness for C6: a concrete level below `2 ^ 64`. -/
theorem C6_witness :
    123456789 < W
    ∧ ResponseDataAccounter.init.GetMaxLevel = W - 1
    ∧ ({ ResponseDataAccounter.init with current_ := 123456789 } :
        ResponseDataAccounter).IsLimitReached = false :=
  ⟨by decide, (C6_default_ceiling_unlimited 123456789 (by decide)).1,
    (C6_default_ceiling_unlimited 123456789 (by decide)).2⟩

/-- Claim C7: every accounter operation is a total function of the state
(each equals an explicit update or read of the fields), and the division
inside `GetAvgRequestTime` is guarded: evaluated through `tdivChecked`,
which fails on a zero divisor, it still always produces a value, equal to
`GetAvgRequestTime`. -/
theorem C7_operations_total (acc : ResponseDataAccounter) (size : Nat)
    (t now : Int) (lvl : Nat) :
    (acc.StartRequest size t).current_ = addW acc.current_ size
    ∧ (acc.StopRequest size t now).current_ = subW acc.current_ size
    ∧ acc.GetCurrentLevel = acc.current_
    ∧ acc.GetMaxLevel = acc.max_
    ∧ (acc.SetMaxLevel lvl).max_ = lvl
    ∧ ∃ ms, acc.GetAvgRequestTimeChecked = some ms
        ∧ acc.GetAvgRequestTime = ms := by
  refine ⟨rfl, rfl, rfl, rfl, rfl, ?_⟩
  by_cases h : acc.count_ = 0
  · exact ⟨0, by simp [ResponseDataAccounter.GetAvgRequestTimeChecked, h],
      by simp [ResponseDataAccounter.GetAvgRequestTime, h]⟩
  · exact ⟨acc.time_sum_.tdiv acc.count_,
      by simp [ResponseDataAccounter.GetAvgRequestTimeChecked, tdivChecked, h],
      by simp [ResponseDataAccounter.GetAvgRequestTime, h]⟩

/-- Claim C8: `SetSendFailed(failureTime)` mutates only the response
object: the shared accounter's `GetCurrentLevel()` is unchanged by the
call, the guard is untouched, and the object's size is released only at
destruction, via the guard's `StopRequest` with the original size and
create time. -/
theorem C8_sendfailed_preserves_level (r : ResponseBase)
    (acc acc2 : ResponseDataAccounter) (failure_time dnow : Int) :
    (sendFailedStep (r, acc) failure_time).2.GetCurrentLevel
        = acc.GetCurrentLevel
    ∧ (r.SetSendFailed failure_time).guard_ = r.guard_
    ∧ (r.SetSendFailed failure_time).destroy acc2 dnow
        = acc2.StopRequest r.guard_.size_ r.guard_.create_time_ dnow :=
  ⟨rfl, rfl, rfl⟩

/-- Claim C9: `MoveData()` hands the payload to the caller and leaves the
object's buffer empty, so a subsequent `GetData()` returns the empty
string (the payload is consumed at most once). -/
theorem C9_movedata_leaves_empty (r : ResponseBase) :
    ((r.MoveData).2).GetData = "" ∧ (r.MoveData).1 = r.data_ :=
  ⟨rfl, rfl⟩

/-- Claim C10: the snapshot constructor treats the two striped request
counters asymmetrically: `active_request_count` goes through
`NonNegativeRead` (clamped to zero when the raw sum is negative), while
`requests_processed_count` takes the raw signed `Read` into an unsigned
field, so a transiently negative sum converts modularly to the huge value
`sum + 2 ^ 64` instead of being clamped to zero. -/
theorem C10_snapshot_read_asymmetry (s : Stats)
    (hneg : s.requests_processed_count < 0)
    (hlb : -(W : Int) < s.requests_processed_count) :
    (s.active_request_count < 0 →
      (StatsAggregation.ofStats s).active_request_count = 0)
    ∧ ((StatsAggregation.ofStats s).requests_processed_count : Int)
        = s.requests_processed_count + (W : Int)
    ∧ (StatsAggregation.ofStats s).requests_processed_count ≠ 0 := by
  refine ⟨fun h => ?_, ?_, ?_⟩
  · simp only [StatsAggregation.ofStats, stripedNonNegativeRead]
    omega
  · simp only [StatsAggregation.ofStats, sizeTOfInt, stripedRead]
    rw [W_eq] at hlb ⊢
    omega
  · simp only [StatsAggregation.ofStats, sizeTOfInt, stripedRead]
    rw [W_eq] at hlb ⊢
    omega

/-- Witness for C10: a `Stats` whose processed-count striped sum reads
`-5` and whose active-count sum reads `-3`: the snapshot clamps the active
count to 0 but stores `2 ^ 64 - 5` for the processed count. -/
theorem C10_witness :
    ((-5 : Int) < 0)
    ∧ (-(W : Int) < -5)
    ∧ (((StatsAggregation.ofStats
          ⟨0, 0, 0, ⟨0, ⟨0, 0, 0, 0, 0⟩⟩, -3, -5⟩).requests_processed_count : Int)
        = -5 + (W : Int))
    ∧ (StatsAggregation.ofStats
        ⟨0, 0, 0, ⟨0, ⟨0, 0, 0, 0, 0⟩⟩, -3, -5⟩).active_request_count = 0 :=
  have h1 : ((-5 : Int) < 0) := by decide
  have h2 : (-(W : Int) < -5) := by rw [W_eq]; omega
  ⟨h1, h2,
    (C10_snapshot_read_asymmetry ⟨0, 0, 0, ⟨0, ⟨0, 0, 0, 0, 0⟩⟩, -3, -5⟩ h1 h2).2.1,
    (C10_snapshot_read_asymmetry ⟨0, 0, 0, ⟨0, ⟨0, 0, 0, 0, 0⟩⟩, -3, -5⟩ h1 h2).1
      (by decide)⟩

end Userver
